import Mathlib

/-!
Shallow embedding of the connection-state synchronization logic of
`frontend/src/pages/Connect.tsx` (the Connect page of the whatsappautomation
repository): the snapshot data model, the merge of poll and push candidate
snapshots into the component state, the SSE reconnect discipline, the poll
cadence, the QR-image (code artifact) lifecycle and the elapsed-time
derivation.  Every definition mirrors the TypeScript source; JavaScript
truthiness on the fields involved is modelled explicitly.
-/

namespace Connect

/-- The `WhatsAppState` interface of Connect.tsx (the component's `state`).
`status` is kept as a raw string because the code performs no runtime check
that it belongs to the declared union type. -/
structure WhatsAppState where
  status : String
  qrCode : Option String
  userPhone : Option String
  lastUpdate : String
  errorMsg : Option String
  messagesProcessed : Nat
  progress : Nat
  progressText : String
  connectionStartTime : Option Int
  deriving Repr, DecidableEq

/-- A candidate snapshot as it arrives from the backend (`json.data` in
`fetchStatus`, or the parsed SSE event payload).  `messagesProcessed` may be
absent in the raw JSON, hence `Option Nat`. -/
structure Candidate where
  status : String
  qrCode : Option String
  userPhone : Option String
  lastUpdate : String
  errorMsg : Option String
  messagesProcessed : Option Nat
  progress : Nat
  progressText : String
  connectionStartTime : Option Int
  deriving Repr, DecidableEq

/-- JavaScript `a || b` on an optional number: `undefined` and `0` are falsy,
so they select `b`; any other number is returned unchanged. -/
def jsOrNat : Option Nat → Nat → Nat
  | none, y => y
  | some 0, y => y
  | some (n + 1), _ => n + 1

/-- The state updater shared verbatim by `fetchStatus` and the SSE
`onmessage` handler:
`setState(prev => ({ ...data, messagesProcessed: data.messagesProcessed || prev.messagesProcessed }))`.
Every field of the candidate is spread into the new state; only
`messagesProcessed` is overridden by the `||` merge. -/
def applyCandidate (prev : WhatsAppState) (data : Candidate) : WhatsAppState :=
  { status := data.status
    qrCode := data.qrCode
    userPhone := data.userPhone
    lastUpdate := data.lastUpdate
    errorMsg := data.errorMsg
    messagesProcessed := jsOrNat data.messagesProcessed prev.messagesProcessed
    progress := data.progress
    progressText := data.progressText
    connectionStartTime := data.connectionStartTime }

/-- Outcome of the `fetch` inside `fetchStatus`: either the network request
threw, or a JSON body with a `success` flag and a data payload came back. -/
inductive FetchResult where
  | netError : FetchResult
  | response (success : Bool) (data : Candidate) : FetchResult
  deriving Repr, DecidableEq

/-- `fetchStatus` (Connect.tsx lines 80-97) as a state transformer: on a
thrown network error the catch block only logs, on `success: false` nothing
happens, and on `success: true` the candidate is applied. -/
def fetchStatus (prev : WhatsAppState) : FetchResult → WhatsAppState
  | .netError => prev
  | .response success data => if success then applyCandidate prev data else prev

/-- The SSE `onmessage` handler (Connect.tsx lines 250-258): `JSON.parse`
failure is caught and ignored (`none`); a parsed payload is applied with the
same updater as the poll path. -/
def onMessage (prev : WhatsAppState) : Option Candidate → WhatsAppState
  | none => prev
  | some data => applyCandidate prev data

/-- The closed set of connection states declared by the `WhatsAppState`
interface's `status` union type. -/
def validStates : List String :=
  ["disconnected", "initializing", "qr_ready", "connecting", "authenticating",
   "loading_chats", "connected", "error"]

/-! ### SSE push driver (`connectSSE`, lines 244-266, and its lifecycle effect)

Connections are given fresh numeric ids; `openConns` tracks every
`EventSource` that has been constructed and not yet `close()`d, `sseRef`
mirrors `sseRef.current`, and `pending` mirrors `reconnectTimeoutRef.current`
(recording the delay of the scheduled `setTimeout`). -/

structure SseState where
  openConns : List Nat
  sseRef : Option Nat
  pending : Option Nat
  nextId : Nat
  deriving Repr, DecidableEq

/-- `connectSSE`: `if (sseRef.current) sseRef.current.close()`, then construct
a new `EventSource` and store it in `sseRef.current`. -/
def connectSSE (s : SseState) : SseState :=
  let s1 :=
    match s.sseRef with
    | some c => { s with openConns := s.openConns.erase c, sseRef := none }
    | none => s
  { s1 with
    openConns := s1.openConns ++ [s1.nextId]
    sseRef := some s1.nextId
    nextId := s1.nextId + 1 }

/-- The `onerror` handler of the live `EventSource`: close it, null out
`sseRef.current`, clear any pending reconnect timeout, and schedule a new
`connectSSE` after a fixed 2000 ms delay.  A closed `EventSource` fires no
further events, so the handler only acts when a connection is live. -/
def sseOnError (s : SseState) : SseState :=
  match s.sseRef with
  | some c =>
      { s with
        openConns := s.openConns.erase c
        sseRef := none
        pending := some 2000 }
  | none => s

/-- The reconnect timeout firing: `setTimeout(() => connectSSE(), 2000)`.
A cleared or absent timeout never fires. -/
def sseTimerFire (s : SseState) : SseState :=
  match s.pending with
  | some _ => connectSSE { s with pending := none }
  | none => s

/-- External events the push driver reacts to after mount. -/
inductive SseEvent where
  | transportError : SseEvent
  | timerFire : SseEvent
  deriving Repr, DecidableEq

def sseStep (s : SseState) : SseEvent → SseState
  | .transportError => sseOnError s
  | .timerFire => sseTimerFire s

/-- State right after the mount effect (`useEffect` lines 268-274) has run
`connectSSE()` once. -/
def sseInit : SseState := connectSSE ⟨[], none, none, 0⟩

/-- Run the push driver from mount through a list of events. -/
def sseRun (es : List SseEvent) : SseState := es.foldl sseStep sseInit

/-- Structural invariant of the push driver: the open connections are
exactly the one held in `sseRef` (none when it is null), and the driver is
never idle — it always holds either a live connection or a scheduled
reconnect. -/
def SseInv (s : SseState) : Prop :=
  s.openConns = s.sseRef.toList ∧ (s.sseRef.isSome ∨ s.pending.isSome)

/-! ### Poll driver (`useEffect`, lines 277-286) -/

/-- The states for which the poll effect chooses the aggressive cadence:
`const activeStates = ['initializing', 'qr_ready', 'connecting', 'authenticating', 'loading_chats']`. -/
def activeStates : List String :=
  ["initializing", "qr_ready", "connecting", "authenticating", "loading_chats"]

/-- `const pollInterval = activeStates.includes(state.status) ? 2000 : 30000`. -/
def pollInterval (status : String) : Nat :=
  if status ∈ activeStates then 2000 else 30000

/-- The poll effect depends on `state.status`: whenever the status changes,
React runs the previous effect's cleanup (`clearInterval`) and then installs
a fresh `setInterval` at the cadence chosen from the new status.  The
argument is the period of the previously installed timer (discarded). -/
def pollReschedule (_oldPeriod : Nat) (newStatus : String) : Nat :=
  pollInterval newStatus

/-- One poll tick: `fetchStatus(false)` runs against the current state; the
interval installed by the effect is untouched by the outcome, so the next
tick stays scheduled with the same period. -/
def pollTick (st : WhatsAppState) (period : Nat) (r : FetchResult) :
    WhatsAppState × Nat :=
  (fetchStatus st r, period)

/-! ### Code artifact manager (`useEffect` QR code image loading, lines 100-130)

A displayed URL is either an inline payload used verbatim (`data:` or
`http(s)` strings) or an object URL created from a fetched blob.  Blob URLs
carry fresh numeric ids; `liveBlobs` is the set of object URLs created by
`URL.createObjectURL` and not yet revoked. -/

inductive Url where
  | inline (s : String) : Url
  | blob (id : Nat) : Url
  deriving Repr, DecidableEq

structure QrState where
  qrImageUrl : Option Url
  liveBlobs : List Nat
  nextBlob : Nat
  timer : Option Nat
  deriving Repr, DecidableEq

/-- A successful completion of `loadQr`: create a fresh object URL from the
fetched blob, then `setQrImageUrl(prev => { if (prev && prev.startsWith('blob:')) URL.revokeObjectURL(prev); return url })`. -/
def loadQrOk (st : QrState) : QrState :=
  let b := st.nextBlob
  let revoked :=
    match st.qrImageUrl with
    | some (.blob p) => st.liveBlobs.erase p
    | _ => st.liveBlobs
  { st with
    qrImageUrl := some (.blob b)
    liveBlobs := revoked ++ [b]
    nextBlob := b + 1 }

/-- A failed `loadQr` (non-ok response or thrown fetch): the empty catch
block leaves everything untouched. -/
def loadQrRun (ok : Bool) (st : QrState) : QrState :=
  if ok then loadQrOk st else st

/-- JavaScript `s.startsWith(pre)`, modelled on the character lists so that
it evaluates by kernel reduction. -/
def strStartsWith (s pre : String) : Bool := pre.data.isPrefixOf s.data

/-- Whether a payload string is used verbatim by the effect:
`qrCode.startsWith('data:')` or `qrCode.startsWith('http')`.  A displayed
URL satisfies `startsWith('blob:')` exactly when it is an object URL, which
the `Url.blob` constructor records. -/
def inlinePayload (q : String) : Bool :=
  strStartsWith q "data:" || strStartsWith q "http"

/-- The QR effect body, re-run on every change of `(state.status, state.qrCode)`.
React first runs the previous run's cleanup, which clears the 55 s refresh
interval when one was installed; then:
in `qr_ready` an inline payload is displayed directly, while a reference
payload (or no payload) triggers an immediate `loadQr` plus
`setInterval(loadQr, 55000)`; in every other status the displayed URL is
revoked when it is a blob URL and reset to `null`.  `fetchOk` is the outcome
of the immediate fetch on the reference path. -/
def qrEffect (status : String) (qrCode : Option String) (fetchOk : Bool)
    (st : QrState) : QrState :=
  let st := { st with timer := none }
  if status = "qr_ready" then
    match qrCode with
    | some q =>
        if inlinePayload q then { st with qrImageUrl := some (.inline q) }
        else loadQrRun fetchOk { st with timer := some 55000 }
    | none => loadQrRun fetchOk { st with timer := some 55000 }
  else
    match st.qrImageUrl with
    | some (.blob p) =>
        { st with qrImageUrl := none, liveBlobs := st.liveBlobs.erase p }
    | _ => { st with qrImageUrl := none }

/-- A tick of the 55-second refresh interval: runs `loadQr` again when the
interval is installed, and is impossible otherwise. -/
def qrTick (fetchOk : Bool) (st : QrState) : QrState :=
  match st.timer with
  | some _ => loadQrRun fetchOk st
  | none => st

/-- Events driving the code artifact manager. -/
inductive QrEvent where
  | update (status : String) (qrCode : Option String) (fetchOk : Bool) : QrEvent
  | tick (fetchOk : Bool) : QrEvent
  deriving Repr, DecidableEq

def qrStep (st : QrState) : QrEvent → QrState
  | .update status qrCode fetchOk => qrEffect status qrCode fetchOk st
  | .tick fetchOk => qrTick fetchOk st

def qrInit : QrState := ⟨none, [], 0, none⟩

def qrRun (es : List QrEvent) : QrState := es.foldl qrStep qrInit

/-! ### Presentation adapter: elapsed-time derivation (`useEffect`, lines 206-216) -/

/-- JavaScript truthiness of `state.connectionStartTime` (a number or null):
`null` and `0` are falsy. -/
def jsTruthyTime : Option Int → Bool
  | none => false
  | some t => t ≠ 0

/-- The displayed elapsed time as a pure function of the snapshot and the
clock: while `connectionStartTime` is truthy and the status is none of
`connected`, `disconnected`, `error`, the timer displays
`Math.floor((Date.now() - connectionStartTime) / 1000)`; every other case
runs `setElapsedTime(0)`.  (`Int.fdiv` is floor division, matching
`Math.floor` on negatives.) -/
def displayElapsed (st : WhatsAppState) (now : Int) : Int :=
  if jsTruthyTime st.connectionStartTime ∧ st.status ≠ "connected" ∧
      st.status ≠ "disconnected" ∧ st.status ≠ "error" then
    match st.connectionStartTime with
    | some t => Int.fdiv (now - t) 1000
    | none => 0
  else 0

/-- A snapshot with the given status and message count and every optional
field absent; used to instantiate theorems at concrete inputs. -/
def stateOf (status : String) (count : Nat) : WhatsAppState :=
  { status := status, qrCode := none, userPhone := none, lastUpdate := "",
    errorMsg := none, messagesProcessed := count, progress := 0,
    progressText := "", connectionStartTime := none }

/-- A candidate with the given status and (optional) message count and every
other optional field absent. -/
def candOf (status : String) (count : Option Nat) : Candidate :=
  { status := status, qrCode := none, userPhone := none, lastUpdate := "",
    errorMsg := none, messagesProcessed := count, progress := 0,
    progressText := "", connectionStartTime := none }

/-- C1: anti-regression rule — a candidate whose `messagesProcessed` is zero
or absent, whose state is not `disconnected`, arriving while the held
snapshot's count is positive, is published carrying the previously held
count; and both the poll path (`fetchStatus` with a successful response) and
the push path (`onMessage` with a parsed event) publish through this same
updater. -/
theorem c1_anti_regression (prev : WhatsAppState) (d : Candidate)
    (hz : d.messagesProcessed = none ∨ d.messagesProcessed = some 0)
    (hs : d.status ≠ "disconnected")
    (hp : 0 < prev.messagesProcessed) :
    (applyCandidate prev d).messagesProcessed = prev.messagesProcessed ∧
    fetchStatus prev (FetchResult.response true d) = applyCandidate prev d ∧
    onMessage prev (some d) = applyCandidate prev d := by
  refine ⟨?_, by simp [fetchStatus], rfl⟩
  rcases hz with h | h <;> simp [applyCandidate, jsOrNat, h]

/-- Witness for C1 at a concrete input: a `connected` candidate with count
`0` arriving over a held count of `40` publishes `40`. -/
theorem c1_anti_regression_witness :
    (applyCandidate (stateOf "connected" 40) (candOf "connected" (some 0))).messagesProcessed = 40 :=
  (c1_anti_regression (stateOf "connected" 40) (candOf "connected" (some 0))
    (Or.inr rfl) (by decide) (by decide)).1

/-- C2 counterexample: the published count is not non-decreasing — a
non-`disconnected` candidate carrying the nonzero count `5` over a held
count of `40` publishes `5`, a strict decrease with no `disconnected`
candidate involved. -/
theorem c2_monotonicity_cex :
    (applyCandidate (stateOf "connected" 40) (candOf "connected" (some 5))).messagesProcessed = 5 ∧
    (candOf "connected" (some 5)).status ≠ "disconnected" ∧
    (applyCandidate (stateOf "connected" 40) (candOf "connected" (some 5))).messagesProcessed
      < (stateOf "connected" 40).messagesProcessed := by
  exact ⟨rfl, by decide, by decide⟩

/-- C2 (amended): the published count never drops to zero once positive —
for every candidate, including one with state `disconnected` (so there is no
reset on `disconnected` either) — while any candidate carrying a nonzero
count replaces the held count with that value, even a smaller one. -/
theorem c2_count_never_zeroed (prev : WhatsAppState) (d : Candidate) :
    (0 < prev.messagesProcessed → 0 < (applyCandidate prev d).messagesProcessed) ∧
    (∀ n : Nat, d.messagesProcessed = some (n + 1) →
      (applyCandidate prev d).messagesProcessed = n + 1) := by
  constructor
  · intro hp
    cases hd : d.messagesProcessed with
    | none => simpa [applyCandidate, jsOrNat, hd] using hp
    | some n =>
        cases n with
        | zero => simpa [applyCandidate, jsOrNat, hd] using hp
        | succ m => simp [applyCandidate, jsOrNat, hd]
  · intro n hn
    simp [applyCandidate, jsOrNat, hn]

/-- Witness for C2 (amended): a `disconnected` candidate with count `0` over
a held count of `7` keeps the count positive, and a candidate carrying `5`
over a held `40` publishes exactly `5`. -/
theorem c2_count_never_zeroed_witness :
    0 < (applyCandidate (stateOf "disconnected" 7) (candOf "disconnected" (some 0))).messagesProcessed ∧
    (applyCandidate (stateOf "connected" 40) (candOf "connected" (some 5))).messagesProcessed = 5 :=
  ⟨(c2_count_never_zeroed (stateOf "disconnected" 7) (candOf "disconnected" (some 0))).1 (by decide),
   (c2_count_never_zeroed (stateOf "connected" 40) (candOf "connected" (some 5))).2 4 rfl⟩

/-- C3 counterexample: a `connected`-tagged candidate carrying a stale
`qrCode` is published with that `qrCode` intact — no field scoping is
applied before publication. -/
theorem c3_field_scoping_cex :
    (applyCandidate (stateOf "disconnected" 0)
        { candOf "connected" (some 3) with qrCode := some "stale-qr-ref" }).status = "connected" ∧
    (applyCandidate (stateOf "disconnected" 0)
        { candOf "connected" (some 3) with qrCode := some "stale-qr-ref" }).qrCode = some "stale-qr-ref" :=
  ⟨rfl, rfl⟩

/-- C3 (amended): the published snapshot carries the candidate's `qrCode`,
`error` and `user` fields verbatim (no clearing of state-invalid fields at
publication); scoping of the code artifact happens downstream instead — the
QR effect resets the displayed artifact URL to `null` whenever the status is
not `qr_ready`. -/
theorem c3_fields_published_verbatim (prev : WhatsAppState) (d : Candidate)
    (st : QrState) (ok : Bool) :
    (applyCandidate prev d).qrCode = d.qrCode ∧
    (applyCandidate prev d).errorMsg = d.errorMsg ∧
    (applyCandidate prev d).userPhone = d.userPhone ∧
    (∀ status qc, status ≠ "qr_ready" →
      (qrEffect status qc ok st).qrImageUrl = none) := by
  refine ⟨rfl, rfl, rfl, ?_⟩
  intro status qc hst
  cases h : st.qrImageUrl with
  | none => simp [qrEffect, hst, h]
  | some u => cases u <;> simp [qrEffect, hst, h]

/-- Witness for C3 (amended) at concrete inputs. -/
theorem c3_fields_published_verbatim_witness :
    (qrEffect "connected" none true qrInit).qrImageUrl = none :=
  (c3_fields_published_verbatim (stateOf "connected" 0) (candOf "connected" none)
    qrInit true).2.2.2 "connected" none (by decide)

/-- C4 counterexample: a candidate whose state `"warming_up"` lies outside
the closed state set is applied, not rejected — the published snapshot takes
the unknown state and differs from the previously held snapshot. -/
theorem c4_state_validity_cex :
    "warming_up" ∉ validStates ∧
    (applyCandidate (stateOf "disconnected" 0) (candOf "warming_up" (some 1))).status = "warming_up" ∧
    applyCandidate (stateOf "disconnected" 0) (candOf "warming_up" (some 1)) ≠ stateOf "disconnected" 0 := by
  exact ⟨by decide, rfl, by decide⟩

/-- C4 (amended): no state-validity check exists — every candidate's status
string is applied verbatim; the canonical snapshot stays unchanged only when
the SSE event fails to parse, the poll fetch throws, or the poll response
has `success: false`. -/
theorem c4_no_state_validation (prev : WhatsAppState) (d : Candidate) :
    (applyCandidate prev d).status = d.status ∧
    onMessage prev none = prev ∧
    fetchStatus prev FetchResult.netError = prev ∧
    fetchStatus prev (FetchResult.response false d) = prev :=
  ⟨rfl, rfl, rfl, by simp [fetchStatus]⟩

/-- C7: poll failure atomicity and silence — a thrown fetch and a
`success: false` response both leave the snapshot completely unchanged and
the installed poll interval untouched (so the next tick stays scheduled),
and in particular surface no error field change. -/
theorem c7_poll_failure_silent (st : WhatsAppState) (period : Nat) (d : Candidate) :
    pollTick st period FetchResult.netError = (st, period) ∧
    pollTick st period (FetchResult.response false d) = (st, period) ∧
    (fetchStatus st FetchResult.netError).errorMsg = st.errorMsg ∧
    (fetchStatus st (FetchResult.response false d)).status = st.status := by
  refine ⟨rfl, ?_, rfl, ?_⟩ <;> simp [pollTick, fetchStatus]

/-- `connectSSE` always leaves exactly the newly opened connection open,
provided the open connections agreed with `sseRef` beforehand. -/
theorem sseInv_connect (s : SseState) (h1 : s.openConns = s.sseRef.toList) :
    SseInv (connectSSE s) := by
  cases hr : s.sseRef with
  | none =>
      rw [hr] at h1
      simp [connectSSE, hr, SseInv, h1]
  | some c =>
      rw [hr] at h1
      simp [connectSSE, hr, SseInv, h1]

/-- The push-driver invariant is preserved by every event. -/
theorem sseInv_step (s : SseState) (hs : SseInv s) (e : SseEvent) :
    SseInv (sseStep s e) := by
  obtain ⟨h1, h2⟩ := hs
  cases e with
  | transportError =>
      cases hr : s.sseRef with
      | none => simpa [sseStep, sseOnError, hr] using ⟨h1, h2⟩
      | some c =>
          rw [hr] at h1
          refine ⟨?_, Or.inr ?_⟩ <;> simp [sseStep, sseOnError, hr, h1]
  | timerFire =>
      cases hp : s.pending with
      | none => simpa [sseStep, sseTimerFire, hp] using ⟨h1, h2⟩
      | some p =>
          have : sseStep s SseEvent.timerFire = connectSSE { s with pending := none } := by
            simp [sseStep, sseTimerFire, hp]
          rw [this]
          exact sseInv_connect _ h1

/-- Every state reachable from mount satisfies the push-driver invariant. -/
theorem sseInv_run (es : List SseEvent) : SseInv (sseRun es) := by
  have key : ∀ (l : List SseEvent) (s : SseState), SseInv s → SseInv (l.foldl sseStep s) := by
    intro l
    induction l with
    | nil => exact fun s hs => hs
    | cons e t ih => exact fun s hs => ih _ (sseInv_step s hs e)
  exact key es sseInit (sseInv_connect _ rfl)

/-- C5: push-driver reconnect discipline — from mount through any sequence
of transport errors and timer firings, at most one push connection is ever
open; a transport error on the live connection closes it (zero open) and
schedules exactly one reconnect with a fixed 2000 ms delay; and when a
reconnect is pending, its firing consumes the timer and leaves exactly one
open connection, with no retry counter anywhere in the state. -/
theorem c5_sse_reconnect (es : List SseEvent) :
    (sseRun es).openConns.length ≤ 1 ∧
    (∀ c, (sseRun es).sseRef = some c →
      (sseStep (sseRun es) SseEvent.transportError).openConns = [] ∧
      (sseStep (sseRun es) SseEvent.transportError).pending = some 2000) ∧
    (∀ p, (sseRun es).pending = some p →
      (sseStep (sseRun es) SseEvent.timerFire).openConns.length = 1 ∧
      (sseStep (sseRun es) SseEvent.timerFire).pending = none) := by
  obtain ⟨h1, _⟩ := sseInv_run es
  refine ⟨?_, ?_, ?_⟩
  · rw [h1]
    cases (sseRun es).sseRef <;> simp
  · intro c hc
    rw [hc] at h1
    constructor
    · simp [sseStep, sseOnError, hc, h1]
    · simp [sseStep, sseOnError, hc]
  · intro p hp
    have hstep : sseStep (sseRun es) SseEvent.timerFire =
        connectSSE { sseRun es with pending := none } := by
      simp [sseStep, sseTimerFire, hp]
    rw [hstep]
    cases hr : (sseRun es).sseRef with
    | none =>
        rw [hr] at h1
        simp [connectSSE, hr, h1]
    | some c =>
        rw [hr] at h1
        simp [connectSSE, hr, h1]

/-- Witness for C5: on the concrete run from mount, a transport error leaves
zero open connections and one pending 2000 ms reconnect, and the subsequent
timer firing restores exactly one open connection. -/
theorem c5_sse_reconnect_witness :
    ((sseStep (sseRun []) SseEvent.transportError).openConns = [] ∧
      (sseStep (sseRun []) SseEvent.transportError).pending = some 2000) ∧
    ((sseStep (sseRun [SseEvent.transportError]) SseEvent.timerFire).openConns.length = 1 ∧
      (sseStep (sseRun [SseEvent.transportError]) SseEvent.timerFire).pending = none) :=
  ⟨(c5_sse_reconnect []).2.1 0 rfl,
   (c5_sse_reconnect [SseEvent.transportError]).2.2 2000 rfl⟩

/-- C6: state-dependent poll cadence — over the closed state set, the poll
interval is 2000 ms exactly for the five transitional states and 30000 ms
for `connected`, `disconnected` and `error`; and because the poll effect is
keyed on the status, a status change reschedules immediately, so after a
transition from `connected` to `initializing` the freshly installed interval
is the short one. -/
theorem c6_poll_cadence :
    (∀ st, st ∈ validStates →
      (pollInterval st = 2000 ↔
        (st = "initializing" ∨ st = "qr_ready" ∨ st = "connecting" ∨
         st = "authenticating" ∨ st = "loading_chats"))) ∧
    pollInterval "connected" = 30000 ∧
    pollInterval "disconnected" = 30000 ∧
    pollInterval "error" = 30000 ∧
    (∀ old, pollReschedule old "initializing" = 2000) := by
  refine ⟨?_, by decide, by decide, by decide, fun old => rfl⟩
  intro st hst
  simp only [validStates, List.mem_cons, List.mem_singleton, List.not_mem_nil, or_false] at hst
  rcases hst with rfl | rfl | rfl | rfl | rfl | rfl | rfl | rfl <;> decide

/-- Witness for C6: the transitional state `initializing` polls at 2000 ms. -/
theorem c6_poll_cadence_witness : pollInterval "initializing" = 2000 :=
  (c6_poll_cadence.1 "initializing" (by decide)).mpr (Or.inl rfl)

/-- Structural invariant of the code artifact manager: the un-revoked object
URLs carry pairwise distinct ids, every id is below the fresh-id counter,
and a displayed blob URL is un-revoked. -/
def QrInv (st : QrState) : Prop :=
  st.liveBlobs.Nodup ∧ (∀ q ∈ st.liveBlobs, q < st.nextBlob) ∧
  (∀ p, st.qrImageUrl = some (Url.blob p) → p ∈ st.liveBlobs)

/-- A successful `loadQr` preserves the artifact invariant. -/
theorem qrInv_loadQrOk (st : QrState) (h : QrInv st) : QrInv (loadQrOk st) := by
  obtain ⟨hn, hb, hm⟩ := h
  have main : ∀ rl : List Nat, rl.Nodup → (∀ q ∈ rl, q < st.nextBlob) →
      QrInv (QrState.mk (some (Url.blob st.nextBlob)) (rl ++ [st.nextBlob]) (st.nextBlob + 1) st.timer) := by
    intro rl hrn hrb
    refine ⟨?_, ?_, ?_⟩
    · have hnin : st.nextBlob ∉ rl := fun hc => lt_irrefl _ (hrb _ hc)
      simp [List.nodup_append, hrn, hnin]
    · intro q hq
      rcases (by simpa using hq : q ∈ rl ∨ q = st.nextBlob) with hql | rfl
      · exact Nat.lt_succ_of_lt (hrb _ hql)
      · exact Nat.lt_succ_self _
    · intro p hp
      simp only [Option.some.injEq, Url.blob.injEq] at hp
      subst hp
      simp
  cases hu : st.qrImageUrl with
  | none => simpa [loadQrOk, hu] using main st.liveBlobs hn hb
  | some u =>
      cases u with
      | inline s5 => simpa [loadQrOk, hu] using main st.liveBlobs hn hb
      | blob p =>
          simpa [loadQrOk, hu] using
            main (st.liveBlobs.erase p) (hn.erase p)
              (fun q hq => hb q (List.mem_of_mem_erase hq))

/-- The artifact invariant is preserved by every event of the manager. -/
theorem qrInv_step (st : QrState) (h : QrInv st) (e : QrEvent) :
    QrInv (qrStep st e) := by
  obtain ⟨hn, hb, hm⟩ := h
  have hRun : ∀ (ok : Bool) (s2 : QrState), QrInv s2 → QrInv (loadQrRun ok s2) := by
    intro ok s2 h2
    cases ok with
    | true => exact qrInv_loadQrOk s2 h2
    | false => simpa [loadQrRun] using h2
  cases e with
  | update status qc ok =>
      by_cases hqr : status = "qr_ready"
      · subst hqr
        cases qc with
        | none =>
            simp only [qrStep, qrEffect, if_pos rfl]
            exact hRun ok _ ⟨hn, hb, hm⟩
        | some q =>
            by_cases hinl : inlinePayload q
            · simp only [qrStep, qrEffect, if_pos rfl, hinl, if_true]
              exact ⟨hn, hb, fun p hp => by simp at hp⟩
            · simp only [qrStep, qrEffect, if_pos rfl, hinl, if_false, Bool.false_eq_true]
              exact hRun ok _ ⟨hn, hb, hm⟩
      · cases hu : st.qrImageUrl with
        | none =>
            refine ⟨?_, ?_, ?_⟩ <;> simp [qrStep, qrEffect, hqr, hu]
            · exact hn
            · exact hb
        | some u =>
            cases u with
            | inline s5 =>
                refine ⟨?_, ?_, ?_⟩ <;> simp [qrStep, qrEffect, hqr, hu]
                · exact hn
                · exact hb
            | blob p =>
                refine ⟨?_, ?_, ?_⟩ <;> simp [qrStep, qrEffect, hqr, hu]
                · exact hn.erase p
                · exact fun q hq => hb q (List.mem_of_mem_erase hq)
  | tick ok =>
      cases ht : st.timer with
      | none => simpa [qrStep, qrTick, ht] using (⟨hn, hb, hm⟩ : QrInv st)
      | some per =>
          simp only [qrStep, qrTick, ht]
          exact hRun ok st ⟨hn, hb, hm⟩

/-- Every state reachable from mount satisfies the artifact invariant. -/
theorem qrInv_run (es : List QrEvent) : QrInv (qrRun es) := by
  have key : ∀ (l : List QrEvent) (s : QrState), QrInv s → QrInv (l.foldl qrStep s) := by
    intro l
    induction l with
    | nil => exact fun s hs => hs
    | cons e t ih => exact fun s hs => ih _ (qrInv_step s hs e)
  exact key es qrInit ⟨List.nodup_nil, fun q hq => absurd hq (List.not_mem_nil q), fun p hp => by simp [qrInit] at hp⟩

/-- The event trace exhibiting the leak: a fetched blob artifact is
displaced by an inline payload while remaining in `qr_ready`, and a second
fetch then issues a new blob while the first was never revoked. -/
def qrLeakTrace : List QrEvent :=
  [QrEvent.update "qr_ready" none true,
   QrEvent.update "qr_ready" (some "data:image/png;base64,xyz") true,
   QrEvent.update "qr_ready" none true]

/-- C8 counterexample: after `qrLeakTrace` two object URLs (ids 0 and 1) are
live simultaneously — blob 0 was displaced by the inline payload without
`URL.revokeObjectURL` and blob 1 was then issued while blob 0 was still
un-revoked — refuting "at most one live code-artifact handle exists". -/
theorem c8_single_artifact_cex :
    (qrRun qrLeakTrace).liveBlobs = [0, 1] ∧
    (qrRun qrLeakTrace).qrImageUrl = some (Url.blob 1) := by
  exact ⟨by decide, by decide⟩

/-- C8 (amended): release is keyed to the currently displayed URL, not to
all issued handles — on any transition away from `qr_ready` the displayed
blob handle is revoked (gone from the live set) and the displayed URL
cleared, unconditionally; and a completed re-fetch revokes the displayed
blob handle at the same time the fresh one is exposed.  A blob handle that
was displaced by an inline payload is however never revoked, so distinct
un-revoked handles can coexist (see the counterexample). -/
theorem c8_release_discipline (es : List QrEvent) :
    (∀ status qc (ok : Bool) p, status ≠ "qr_ready" →
      (qrRun es).qrImageUrl = some (Url.blob p) →
      (qrEffect status qc ok (qrRun es)).qrImageUrl = none ∧
      p ∉ (qrEffect status qc ok (qrRun es)).liveBlobs) ∧
    (∀ p, (qrRun es).qrImageUrl = some (Url.blob p) →
      (loadQrOk (qrRun es)).qrImageUrl = some (Url.blob (qrRun es).nextBlob) ∧
      p ∉ (loadQrOk (qrRun es)).liveBlobs) := by
  obtain ⟨hn, hb, hm⟩ := qrInv_run es
  constructor
  · intro status qc ok p hst hu
    constructor
    · simp [qrEffect, hst, hu]
    · simp only [qrEffect, hst, hu, if_neg hst]
      exact hn.not_mem_erase
  · intro p hu
    constructor
    · simp [loadQrOk, hu]
    · have hlt : p < (qrRun es).nextBlob := hb p (hm p hu)
      simp only [loadQrOk, hu, List.mem_append, List.mem_singleton]
      rintro (hc | rfl)
      · exact hn.not_mem_erase hc
      · exact lt_irrefl _ hlt

/-- Witness for C8 (amended): leaving `qr_ready` after one fetched artifact
clears the display and revokes blob 0. -/
theorem c8_release_discipline_witness :
    (qrEffect "connected" none true (qrRun [QrEvent.update "qr_ready" none true])).qrImageUrl = none ∧
    0 ∉ (qrEffect "connected" none true (qrRun [QrEvent.update "qr_ready" none true])).liveBlobs :=
  (c8_release_discipline [QrEvent.update "qr_ready" none true]).1
    "connected" none true 0 (by decide) (by decide)

/-- C9: artifact refresh cadence — in `qr_ready` with no payload or a
non-inline reference payload the effect installs the 55000 ms refresh
interval (55 s, below the 60 s remote expiry) and each of its ticks re-runs
`loadQr`; an inline (`data:`/`http`) payload is displayed directly, installs
no interval and performs no fetch (fresh-id counter and live set
untouched). -/
theorem c9_refresh_cadence (st : QrState) (q : String) (ok : Bool) :
    (qrEffect "qr_ready" none ok st).timer = some 55000 ∧
    (inlinePayload q = false → (qrEffect "qr_ready" (some q) ok st).timer = some 55000) ∧
    (∀ (s2 : QrState) per, s2.timer = some per → qrTick true s2 = loadQrOk s2) ∧
    (55000 < 60000) ∧
    (inlinePayload q = true →
      (qrEffect "qr_ready" (some q) ok st).timer = none ∧
      (qrEffect "qr_ready" (some q) ok st).qrImageUrl = some (Url.inline q) ∧
      (qrEffect "qr_ready" (some q) ok st).nextBlob = st.nextBlob ∧
      (qrEffect "qr_ready" (some q) ok st).liveBlobs = st.liveBlobs) := by
  refine ⟨?_, ?_, ?_, by decide, ?_⟩
  · cases ok <;> simp [qrEffect, loadQrRun, loadQrOk]
  · intro hinl
    cases ok <;> simp [qrEffect, hinl, loadQrRun, loadQrOk]
  · intro s2 per h2
    simp [qrTick, h2, loadQrRun]
  · intro hinl
    refine ⟨?_, ?_, ?_, ?_⟩ <;> simp [qrEffect, hinl]

/-- Witness for C9: a reference payload installs the 55 s interval; an
inline payload installs none. -/
theorem c9_refresh_cadence_witness :
    (qrEffect "qr_ready" (some "server-ref") true qrInit).timer = some 55000 ∧
    (qrEffect "qr_ready" (some "data:image/png;base64,A") true qrInit).timer = none :=
  ⟨(c9_refresh_cadence qrInit "server-ref" true).2.1 (by decide),
   ((c9_refresh_cadence qrInit "data:image/png;base64,A" true).2.2.2.2 (by decide)).1⟩

/-- C10: elapsed-time derivation — given a present (truthy) session start
time, the presentation adapter displays
`Math.floor((now - connectionStartTime) / 1000)` whenever the status is none
of `connected`, `disconnected`, `error`, and displays `0` whenever the
status is one of those three; the derivation is a pure function of the
snapshot and the clock and produces no snapshot. -/
theorem c10_elapsed_derivation (st : WhatsAppState) (now t : Int)
    (hts : st.connectionStartTime = some t) (ht0 : t ≠ 0) :
    (st.status ≠ "connected" → st.status ≠ "disconnected" → st.status ≠ "error" →
      displayElapsed st now = Int.fdiv (now - t) 1000) ∧
    (st.status = "connected" ∨ st.status = "disconnected" ∨ st.status = "error" →
      displayElapsed st now = 0) := by
  constructor
  · intro h1 h2 h3
    simp [displayElapsed, jsTruthyTime, hts, ht0, h1, h2, h3]
  · rintro (h | h | h) <;> simp [displayElapsed, h]

/-- Witness for C10: with a session started at 5000 ms and a clock at
12000 ms, `qr_ready` displays 7 s while `connected` displays 0. -/
theorem c10_elapsed_derivation_witness :
    displayElapsed { stateOf "qr_ready" 0 with connectionStartTime := some 5000 } 12000 = 7 ∧
    displayElapsed { stateOf "connected" 0 with connectionStartTime := some 5000 } 12000 = 0 := by
  constructor
  · have h := (c10_elapsed_derivation
      { stateOf "qr_ready" 0 with connectionStartTime := some 5000 } 12000 5000 rfl
      (by decide)).1 (by decide) (by decide) (by decide)
    rw [h]
    decide
  · exact (c10_elapsed_derivation
      { stateOf "connected" 0 with connectionStartTime := some 5000 } 12000 5000 rfl
      (by decide)).2 (Or.inl rfl)

end Connect
